import Mathlib

/-!
Verification of the esbonio live-preview synchronization subsystem.

This file gives a shallow embedding, in Lean 4, of the preview-coordination
code of the repository:

* `esbonio/server/features/preview_manager/__init__.py` — the
  `PreviewManager` feature (`get_http_server`, `get_webview_server`,
  `on_build`, `preview_file`), together with the `RequestHandlerFactory`
  whose mutable `build_dir` field is the directory currently served by the
  static preview HTTP server;
* `esbonio/server/features/sphinx_manager/client.py` — the `SphinxClient`
  (resolved `sphinx_info`, the derived `src_uri`/`build_dir`/`builder`
  accessors, `create_application`, `server_exit`).

Python strings are modelled as `List Char` (a Python `str` is a sequence of
Unicode code points); `str.replace` is modelled by `pyReplace`, which — like
Python's — replaces every non-overlapping occurrence, scanning left to
right.  Stateful code is modelled by explicit state passing over the
`PreviewManager` record; the ephemeral port chosen by the operating system
at bind time is modelled as an explicit `fresh` argument consumed only when
the corresponding server is created.  `bytes.decode("utf8")`, which Python
performs strictly, is modelled by the strict decoder `utf8Decode`;
exceptions are modelled with `Except`.
-/

/-- Model of Python's `str.replace(old, new)` scan for a non-empty `old`:
every non-overlapping occurrence of `old` is replaced, scanning left to
right.  The `fuel` argument makes the recursion structural (so that the
kernel can evaluate the function); it is an upper bound on the length of
the string being scanned, supplied by `pyReplace`. -/
def pyReplaceAux (old new : List Char) : Nat → List Char → List Char
  | _, [] => []
  | 0, s => s
  | fuel + 1, c :: rest =>
    if old.isPrefixOf (c :: rest) && !old.isEmpty then
      new ++ pyReplaceAux old new fuel (rest.drop (old.length - 1))
    else
      c :: pyReplaceAux old new fuel rest

/-- Python's replace-all scan for a non-empty pattern `old`. -/
def pyReplace (old new s : List Char) : List Char :=
  pyReplaceAux old new s.length s

/-- Model of Python's `str.replace(old, new)`, including the empty-pattern
case (`"ab".replace("", "-") == "-a-b-"`). -/
def pyStrReplace (s old new : List Char) : List Char :=
  if old.isEmpty then new ++ s.flatMap (fun c => [c] ++ new)
  else pyReplace old new s

/-- `str.replace` lifted to Lean `String`s. -/
def strReplace (s old new : String) : String :=
  (pyStrReplace s.toList old.toList new.toList).asString

example : strReplace "/foo/bar.rst" ".rst" ".html" = "/foo/bar.html" := by decide
example : strReplace "/a.rst/b.rst" ".rst" ".html" = "/a.html/b.html" := by decide
example : strReplace "/proj/docs/index.rst" "/proj/docs" "" = "/index.rst" := by decide

/-- The `html` branch of `PreviewManager.preview_file`
(`preview_manager/__init__.py`, line 151):
`html_path = rst_path.replace(".rst", ".html")`. -/
def htmlMap (rst_path : String) : String :=
  strReplace rst_path ".rst" ".html"

/-- The `dirhtml` branch of `PreviewManager.preview_file`
(`preview_manager/__init__.py`, line 153):
`html_path = rst_path.replace("index.rst", "").replace(".rst", "/")`. -/
def dirhtmlMap (rst_path : String) : String :=
  strReplace (strReplace rst_path "index.rst" "") ".rst" "/"

/-- The `html` mapping rule exactly as the specification words it: replace a
trailing `.rst` extension with `.html`, and only a trailing `.rst`.  This
definition transcribes the spec's rule, for comparison with `htmlMap`,
which is translated from the code. -/
def specHtmlMap (p : String) : String :=
  if ".rst".toList.isSuffixOf p.toList then
    (p.toList.take (p.toList.length - 4) ++ ".html".toList).asString
  else p

/-- The `dirhtml` mapping rule exactly as the specification words it: if the
remaining path is exactly `index.rst`, map to the empty string; otherwise
replace a trailing `.rst` with a trailing `/`.  This definition transcribes
the spec's rule, for comparison with `dirhtmlMap`, which is translated from
the code. -/
def specDirhtmlMap (p : String) : String :=
  if p = "index.rst" then ""
  else if ".rst".toList.isSuffixOf p.toList then
    (p.toList.take (p.toList.length - 4) ++ "/".toList).asString
  else p

/-! ### The Sphinx client (`sphinx_manager/client.py`) -/

/-- The structured response to the `sphinx/createApp` RPC request, stored by
`SphinxClient.create_application` as `self.sphinx_info`. -/
structure SphinxInfo where
  src_dir : String
  conf_dir : String
  build_dir : String
  builder : String
deriving DecidableEq

/-- The state of a `SphinxClient`: `sphinx_info` is `None` until
`create_application` succeeds (so the derived accessors are all-or-nothing),
and `stopped` is the flag inherited from the `pygls` base `Client`. -/
structure SphinxClient where
  sphinx_info : Option SphinxInfo
  stopped : Bool
deriving DecidableEq

namespace SphinxClient

/-- `SphinxClient.src_dir`: `None` until `sphinx_info` is set. -/
def src_dir (c : SphinxClient) : Option String :=
  c.sphinx_info.map SphinxInfo.src_dir

/-- `SphinxClient.src_uri` is `Uri.from_fs_path(src_dir)`, where `Uri` in
`client.py` is the `pygls.uris` module (an external library): it returns
the `file://` URI of the path as a plain string, so the property is
`Optional[str]` — `None` while `src_dir` is `None`.  Being a string, the
result has no `.path` attribute; only its `is None` test is ever reached
in the source. -/
def src_uri (c : SphinxClient) : Option String :=
  c.src_dir.map (fun d => "file://" ++ d)

/-- `SphinxClient.conf_dir`: `None` until `sphinx_info` is set. -/
def conf_dir (c : SphinxClient) : Option String :=
  c.sphinx_info.map SphinxInfo.conf_dir

/-- `SphinxClient.build_dir`: `None` until `sphinx_info` is set. -/
def build_dir (c : SphinxClient) : Option String :=
  c.sphinx_info.map SphinxInfo.build_dir

/-- `SphinxClient.create_application(config)`: raises
`RuntimeError("Client is stopped.")` if the client is stopped; otherwise
sends one `sphinx/createApp` request, awaits the structured `response`
(the modelled RPC round trip), stores it as `sphinx_info` and returns it.
The second component counts the RPC requests sent by the call. -/
def create_application (c : SphinxClient) (response : SphinxInfo) :
    Except String (SphinxClient × SphinxInfo) × Nat :=
  if c.stopped then
    (Except.error "Client is stopped.", 0)
  else
    (Except.ok ({ c with sphinx_info := some response }, response), 1)

end SphinxClient

/-- Whether a byte is a UTF-8 continuation byte (`0x80`–`0xBF`). -/
def contByte (b : Nat) : Bool :=
  0x80 ≤ b && b ≤ 0xBF

/-- Strict UTF-8 decoding of a byte sequence into code points, modelling
Python's `bytes.decode("utf8")` (which uses the `strict` error handler):
rejects invalid start bytes, truncated sequences, overlong encodings,
surrogates and code points above `0x10FFFF`, returning `none` where Python
raises `UnicodeDecodeError`. -/
def utf8Decode : List Nat → Option (List Char)
  | [] => some []
  | b :: rest =>
    if b ≤ 0x7F then
      (utf8Decode rest).map (Char.ofNat b :: ·)
    else if 0xC2 ≤ b && b ≤ 0xDF then
      match rest with
      | b1 :: r =>
        if contByte b1 then
          (utf8Decode r).map (Char.ofNat ((b - 0xC0) * 64 + (b1 - 0x80)) :: ·)
        else none
      | _ => none
    else if 0xE0 ≤ b && b ≤ 0xEF then
      match rest with
      | b1 :: b2 :: r =>
        let okFirst :=
          if b = 0xE0 then 0xA0 ≤ b1 && b1 ≤ 0xBF
          else if b = 0xED then 0x80 ≤ b1 && b1 ≤ 0x9F
          else contByte b1
        if okFirst && contByte b2 then
          (utf8Decode r).map
            (Char.ofNat ((b - 0xE0) * 4096 + (b1 - 0x80) * 64 + (b2 - 0x80)) :: ·)
        else none
      | _ => none
    else if 0xF0 ≤ b && b ≤ 0xF4 then
      match rest with
      | b1 :: b2 :: b3 :: r =>
        let okFirst :=
          if b = 0xF0 then 0x90 ≤ b1 && b1 ≤ 0xBF
          else if b = 0xF4 then 0x80 ≤ b1 && b1 ≤ 0x8F
          else contByte b1
        if okFirst && contByte b2 && contByte b3 then
          (utf8Decode r).map
            (Char.ofNat
              ((b - 0xF0) * 262144 + (b1 - 0x80) * 4096 + (b2 - 0x80) * 64 +
                (b3 - 0x80)) :: ·)
        else none
      | _ => none
    else none

example : utf8Decode [98, 111, 111, 109] = some "boom".toList := by decide
example : utf8Decode [0xFF] = none := by decide
example : utf8Decode [0xC3, 0xA9] = some ['é'] := by decide

/-- `SphinxClient.server_exit(server)`: logs the exit code; when the exit
status is non-zero, drains the process's stderr and logs its
`decode("utf8")`.  Python's strict decoding raises `UnicodeDecodeError`
on bytes that are not valid UTF-8, modelled here by the `Except.error`
branch; the `Except.ok` value is the list of messages logged. -/
def server_exit (returncode : Int) (stderr : List Nat) :
    Except String (List String) :=
  let logs := ["Process exited with code: " ++ toString returncode]
  if returncode ≠ 0 then
    match utf8Decode stderr with
    | none => Except.error "UnicodeDecodeError"
    | some chars => Except.ok (logs ++ ["Stderr:\n" ++ chars.asString])
  else
    Except.ok logs

/-! ### The preview manager (`preview_manager/__init__.py`) -/

/-- The `RequestHandlerFactory`: its mutable `build_dir` field is the
directory the static preview HTTP server serves; the request handlers it
produces read this field per request. -/
structure RequestHandlerFactory where
  build_dir : String
deriving DecidableEq

/-- The mutable state of the `PreviewManager` feature.  The two lazily
created servers are modelled by the port each one is bound to (`none` until
the server is created); `reloads` counts the reload broadcasts sent through
the webview (control channel) server. -/
structure PreviewManager where
  request_handler_factory : RequestHandlerFactory
  http_server : Option Nat
  ws_server : Option Nat
  reloads : Nat
deriving DecidableEq

namespace PreviewManager

/-- The state established by `PreviewManager.__init__`: the request handler
factory is constructed with `build_dir = ""`, and neither server exists. -/
def initial : PreviewManager :=
  { request_handler_factory := { build_dir := "" }
    http_server := none
    ws_server := none
    reloads := 0 }

/-- `PreviewManager.get_http_server`: returns the existing HTTP server if
there is one; otherwise creates it, binding the ephemeral port `fresh`
(the port the operating system hands out for `("localhost", 0)`), and
starts serving.  Returns the server (modelled by its bound port) and the
updated state. -/
def get_http_server (fresh : Nat) (s : PreviewManager) : Nat × PreviewManager :=
  match s.http_server with
  | some port => (port, s)
  | none => (fresh, { s with http_server := some fresh })

/-- `PreviewManager.get_webview_server`: returns the existing webview
(control channel) server if there is one; otherwise creates it via
`make_ws_server` and `start_ws("localhost", 0)`, binding the ephemeral port
`fresh`.  Returns the server (modelled by its bound port) and the updated
state. -/
def get_webview_server (fresh : Nat) (s : PreviewManager) : Nat × PreviewManager :=
  match s.ws_server with
  | some port => (port, s)
  | none => (fresh, { s with ws_server := some fresh })

/-- Modelled from the spec: `WebviewServer.reload()` lives in
`preview_manager/webview.py`, which is not among the provided source files;
per the spec (§4.4) it broadcasts a `reload` control message to all
connected preview front-ends.  The broadcast is modelled by incrementing
the `reloads` counter. -/
def reload (s : PreviewManager) : PreviewManager :=
  { s with reloads := s.reloads + 1 }

/-- `PreviewManager.on_build`: called whenever a sphinx build completes.
`client` is the result of `self.sphinx.get_client(src_uri)` (the external
registry).  If no client resolves, or the client's `build_dir` differs from
`self._request_handler_factory.build_dir` (the directory currently served),
the event is ignored; otherwise the webview server is obtained (created on
`freshWs` if absent) and `reload()` is broadcast. -/
def on_build (client : Option SphinxClient) (freshWs : Nat)
    (s : PreviewManager) : PreviewManager :=
  match client with
  | none => s
  | some c =>
    if c.build_dir ≠ some s.request_handler_factory.build_dir then s
    else
      let ws := get_webview_server freshWs s
      reload ws.2

/-- `PreviewManager.preview_file`, as the source executes it.  `docPath` is
the `path` of the parsed source URI, `client` the result of
`self.sphinx.get_client(src_uri)`.  A missing client returns `None`.
Otherwise line 145 evaluates `client.src_uri is None or client.build_dir is
None or client.builder is None` left to right with short-circuiting: while
`sphinx_info` is still `None`, `client.src_uri is None` is true and the call
returns `None` (preview not yet available).  For a resolved client both
`is None` tests are false, so the third disjunct looks up `client.builder` —
an attribute neither `SphinxClient` nor its `pygls` base class defines —
and the call raises `AttributeError`.  Nothing is written before line 145,
so no server state has been mutated when the exception propagates.  The
path mapping (lines 148–161), the server provisioning and the retargeting
of the factory's `build_dir` (lines 163–168) and the URI composition
(lines 170–176) are unreachable; the mapping expressions of the
unreachable builder branches are embedded separately as `htmlMap` and
`dirhtmlMap`.  The `freshHttp`/`freshWs` candidate ports are kept in the
signature for the ensure operations the call would perform; no execution
consumes them. -/
def preview_file (docPath : String) (client : Option SphinxClient)
    (freshHttp freshWs : Nat) (s : PreviewManager) :
    Except String (Option String × PreviewManager) :=
  match client with
  | none => Except.ok (none, s)
  | some c =>
    match c.sphinx_info with
    | none => Except.ok (none, s)
    | some _ =>
      Except.error "AttributeError: 'SphinxClient' object has no attribute 'builder'"

end PreviewManager

/-! ### General lemmas about the replace-all scan -/

theorem toList_append (a b : String) : (a ++ b).toList = a.toList ++ b.toList :=
  String.data_append a b

theorem asString_toList (s : String) : s.toList.asString = s := rfl

/-- A scan over a string in which the pattern occurs nowhere leaves the
string unchanged, whatever the fuel. -/
theorem pyReplaceAux_of_no_occurrence (old new : List Char) (fuel : Nat)
    (s : List Char)
    (h : ∀ i, i < s.length → old.isPrefixOf (s.drop i) = false) :
    pyReplaceAux old new fuel s = s := by
  induction fuel generalizing s with
  | zero => cases s <;> rfl
  | succ fuel ih =>
    cases s with
    | nil => rfl
    | cons c rest =>
      have h0 : old.isPrefixOf (c :: rest) = false := by
        simpa using h 0 (by simp)
      simp only [pyReplaceAux, h0, Bool.false_and, Bool.false_eq_true,
        if_false, List.cons.injEq, true_and]
      exact ih rest fun i hi => by simpa using h (i + 1) (by simpa using hi)

/-- A scan over `q ++ old` in which the pattern occurs nowhere except as the
trailing `old` replaces exactly that trailing occurrence, provided the fuel
exceeds the length of `q`. -/
theorem pyReplaceAux_append_self (old new : List Char) (hold : old ≠ [])
    (fuel : Nat) (q : List Char) (hfuel : q.length < fuel)
    (h : ∀ i, i < q.length → old.isPrefixOf ((q ++ old).drop i) = false) :
    pyReplaceAux old new fuel (q ++ old) = q ++ new := by
  induction q generalizing fuel with
  | nil =>
    obtain ⟨o, os, rfl⟩ : ∃ o os, old = o :: os := by
      cases old with
      | nil => exact absurd rfl hold
      | cons o os => exact ⟨o, os, rfl⟩
    obtain ⟨f, rfl⟩ : ∃ f, fuel = f + 1 := by
      cases fuel with
      | zero => omega
      | succ f => exact ⟨f, rfl⟩
    have hpre : (o :: os).isPrefixOf (o :: os) = true := by
      simp [List.isPrefixOf_iff_prefix]
    simp only [List.nil_append, pyReplaceAux, List.append_eq, hpre,
      List.isEmpty_cons, Bool.not_false, Bool.and_self, if_true,
      List.length_cons, Nat.add_sub_cancel, List.drop_length]
    simp [pyReplaceAux]
  | cons c q' ih =>
    obtain ⟨f, rfl⟩ : ∃ f, fuel = f + 1 := by
      cases fuel with
      | zero => omega
      | succ f => exact ⟨f, rfl⟩
    have h0 : old.isPrefixOf (c :: (q' ++ old)) = false := by
      simpa using h 0 (by simp)
    simp only [List.cons_append, pyReplaceAux, List.append_eq, h0,
      Bool.false_and, Bool.false_eq_true, if_false, List.cons.injEq, true_and]
    exact ih f (by simpa using hfuel) fun i hi => by
      simpa using h (i + 1) (by simpa using hi)

/-- `pyReplace` on a pattern-free string is the identity. -/
theorem pyReplace_of_no_occurrence (old new s : List Char)
    (h : ∀ i, i < s.length → old.isPrefixOf (s.drop i) = false) :
    pyReplace old new s = s :=
  pyReplaceAux_of_no_occurrence old new s.length s h

/-- `pyReplace` on `q ++ old`, when `old` occurs nowhere except at the tail,
replaces exactly the trailing occurrence. -/
theorem pyReplace_append_self (old new : List Char) (hold : old ≠ [])
    (q : List Char)
    (h : ∀ i, i < q.length → old.isPrefixOf ((q ++ old).drop i) = false) :
    pyReplace old new (q ++ old) = q ++ new := by
  refine pyReplaceAux_append_self old new hold _ q ?_ h
  have : 1 ≤ old.length := by
    cases old with
    | nil => exact absurd rfl hold
    | cons o os => simp
  simp only [List.length_append]
  omega

/-! ### Claims -/

/-- C1 counterexample: the claim says that for an `html` client
`preview_file` maps the document's stripped path, replacing only a trailing
`.rst`.  In the source the call never maps anything: with a resolved `html`
client it raises `AttributeError` at the `client.builder` check (line 145),
since `SphinxClient` defines no `builder` attribute.  And the mapping
expression of the unreachable `html` branch is not the trailing-only rule
either: on `/a.rst/b.rst` it rewrites both occurrences (`htmlMap`, i.e.
`str.replace(".rst", ".html")`), where the claimed rule (`specHtmlMap`)
keeps the interior one. -/
theorem preview_html_map_counterexample :
    PreviewManager.preview_file "/proj/docs/foo/bar.rst"
      (some ⟨some ⟨"/proj/docs", "/proj/docs", "/b", "html"⟩, false⟩) 1 2
      PreviewManager.initial
      = Except.error
        "AttributeError: 'SphinxClient' object has no attribute 'builder'" ∧
    htmlMap "/a.rst/b.rst" = "/a.html/b.html" ∧
    specHtmlMap "/a.rst/b.rst" = "/a.rst/b.html" ∧
    htmlMap "/a.rst/b.rst" ≠ specHtmlMap "/a.rst/b.rst" := by
  exact ⟨rfl, by decide, by decide, by decide⟩

/-- C1 (amended): for every client with builder kind `html` and every
document path, `preview_file` performs no mapping at all: it raises
`AttributeError` at the `client.builder` check before the `html` branch can
run.  The mapping expression of that unreachable branch,
`rst_path.replace(".rst", ".html")`, replaces every occurrence of `.rst`
with `.html` (left to right, non-overlapping), not only a trailing one; in
particular it replaces a trailing `.rst` exactly when no occurrence of
`.rst` starts earlier in the stripped path (hypothesis `h`), so
`/foo/bar.rst` would become `/foo/bar.html`. -/
theorem preview_html_crash_and_map (docPath : String) (c : SphinxClient)
    (info : SphinxInfo) (fh fw : Nat) (s : PreviewManager) (q : String)
    (hi : c.sphinx_info = some info) (hb : info.builder = "html")
    (h : ∀ i, i < q.toList.length →
      ".rst".toList.isPrefixOf ((q.toList ++ ".rst".toList).drop i) = false) :
    PreviewManager.preview_file docPath (some c) fh fw s
      = Except.error
        "AttributeError: 'SphinxClient' object has no attribute 'builder'" ∧
    htmlMap (q ++ ".rst") = q ++ ".html" := by
  constructor
  · simp [PreviewManager.preview_file, hi]
  · have key := pyReplace_append_self ".rst".toList ".html".toList (by decide)
      q.toList h
    have e : htmlMap (q ++ ".rst") =
        (pyReplace ".rst".toList ".html".toList
          (q.toList ++ ".rst".toList)).asString := rfl
    rw [e, key]
    exact String.ext rfl

/-- C1 witness: a concrete resolved `html` client and the concrete stripped
path `/foo/bar.rst`. -/
theorem preview_html_crash_and_map_witness :
    PreviewManager.preview_file "/proj/docs/index.rst"
      (some ⟨some ⟨"/proj/docs", "/proj/docs", "/b", "html"⟩, false⟩) 1 2
      PreviewManager.initial
      = Except.error
        "AttributeError: 'SphinxClient' object has no attribute 'builder'" ∧
    htmlMap ("/foo/bar" ++ ".rst") = "/foo/bar" ++ ".html" :=
  preview_html_crash_and_map "/proj/docs/index.rst"
    ⟨some ⟨"/proj/docs", "/proj/docs", "/b", "html"⟩, false⟩
    ⟨"/proj/docs", "/proj/docs", "/b", "html"⟩ 1 2 PreviewManager.initial
    "/foo/bar" rfl rfl (by decide)

/-- C2 counterexample: for a resolved `dirhtml` client `preview_file` never
reaches the `dirhtml` branch — it raises `AttributeError` at the
`client.builder` check (line 145), `SphinxClient` defining no `builder`
attribute.  And the mapping expression of the unreachable branch
(`dirhtmlMap`, i.e. `replace("index.rst", "").replace(".rst", "/")`)
disagrees with the claimed rule anyway: the claimed rule maps
`/foo/index.rst` (not exactly `index.rst`) to `/foo/index/`
(`specDirhtmlMap`), while the expression removes the `index.rst` substring
and yields `/foo/`. -/
theorem preview_dirhtml_map_counterexample :
    PreviewManager.preview_file "/proj/docs/foo/index.rst"
      (some ⟨some ⟨"/proj/docs", "/proj/docs", "/b", "dirhtml"⟩, false⟩) 1 2
      PreviewManager.initial
      = Except.error
        "AttributeError: 'SphinxClient' object has no attribute 'builder'" ∧
    dirhtmlMap "/foo/index.rst" = "/foo/" ∧
    specDirhtmlMap "/foo/index.rst" = "/foo/index/" ∧
    dirhtmlMap "/foo/index.rst" ≠ specDirhtmlMap "/foo/index.rst" := by
  exact ⟨rfl, by decide, by decide, by decide⟩

/-- C2 (amended): for every client with builder kind `dirhtml` and every
document path, `preview_file` maps nothing: it raises `AttributeError` at
the `client.builder` check before the `dirhtml` branch can run.  The
mapping expression of that unreachable branch removes every occurrence of
the substring `index.rst` and then replaces every remaining occurrence of
`.rst` with `/` — not the claimed «exactly `index.rst` → empty, else
trailing `.rst` → `/`» rule.  In particular, when `index.rst` occurs only
as the final path component and `.rst` nowhere else (hypotheses `h1`,
`h2`), `/foo/index.rst` would become `/foo/`; and when `.rst` occurs only
as the trailing extension and `index.rst` nowhere (hypotheses `h3`, `h4`),
`/foo/bar.rst` would become `/foo/bar/`. -/
theorem preview_dirhtml_crash_and_map (docPath : String) (c : SphinxClient)
    (info : SphinxInfo) (fh fw : Nat) (s : PreviewManager)
    (hi : c.sphinx_info = some info) (hb : info.builder = "dirhtml")
    (q r : String)
    (h1 : ∀ i, i < (q ++ "/").toList.length →
      "index.rst".toList.isPrefixOf
        (((q ++ "/").toList ++ "index.rst".toList).drop i) = false)
    (h2 : ∀ i, i < (q ++ "/").toList.length →
      ".rst".toList.isPrefixOf ((q ++ "/").toList.drop i) = false)
    (h3 : ∀ i, i < (r ++ ".rst").toList.length →
      "index.rst".toList.isPrefixOf ((r ++ ".rst").toList.drop i) = false)
    (h4 : ∀ i, i < r.toList.length →
      ".rst".toList.isPrefixOf ((r.toList ++ ".rst".toList).drop i) = false) :
    PreviewManager.preview_file docPath (some c) fh fw s
      = Except.error
        "AttributeError: 'SphinxClient' object has no attribute 'builder'" ∧
    dirhtmlMap (q ++ "/" ++ "index.rst") = q ++ "/" ∧
    dirhtmlMap (r ++ ".rst") = r ++ "/" := by
  refine ⟨by simp [PreviewManager.preview_file, hi], ?_, ?_⟩
  · have inner : strReplace (q ++ "/" ++ "index.rst") "index.rst" "" = q ++ "/" := by
      have e : strReplace (q ++ "/" ++ "index.rst") "index.rst" "" =
          (pyReplace "index.rst".toList []
            ((q ++ "/").toList ++ "index.rst".toList)).asString := rfl
      rw [e, pyReplace_append_self "index.rst".toList [] (by decide)
        (q ++ "/").toList h1, List.append_nil, asString_toList]
    have outer : strReplace (q ++ "/") ".rst" "/" = q ++ "/" := by
      have e : strReplace (q ++ "/") ".rst" "/" =
          (pyReplace ".rst".toList "/".toList ((q ++ "/").toList)).asString := rfl
      rw [e, pyReplace_of_no_occurrence ".rst".toList "/".toList
        (q ++ "/").toList h2, asString_toList]
    show strReplace (strReplace (q ++ "/" ++ "index.rst") "index.rst" "") ".rst" "/"
      = q ++ "/"
    rw [inner, outer]
  · have inner : strReplace (r ++ ".rst") "index.rst" "" = r ++ ".rst" := by
      have e : strReplace (r ++ ".rst") "index.rst" "" =
          (pyReplace "index.rst".toList [] ((r ++ ".rst").toList)).asString := rfl
      rw [e, pyReplace_of_no_occurrence "index.rst".toList []
        (r ++ ".rst").toList h3, asString_toList]
    have outer : strReplace (r ++ ".rst") ".rst" "/" = r ++ "/" := by
      have e : strReplace (r ++ ".rst") ".rst" "/" =
          (pyReplace ".rst".toList "/".toList
            (r.toList ++ ".rst".toList)).asString := rfl
      rw [e, pyReplace_append_self ".rst".toList "/".toList (by decide) r.toList h4]
      exact String.ext rfl
    show strReplace (strReplace (r ++ ".rst") "index.rst" "") ".rst" "/" = r ++ "/"
    rw [inner, outer]

/-- C2 witness: a concrete resolved `dirhtml` client and the concrete
stripped paths `/foo/index.rst` and `/foo/bar.rst`. -/
theorem preview_dirhtml_crash_and_map_witness :
    PreviewManager.preview_file "/proj/docs/index.rst"
      (some ⟨some ⟨"/proj/docs", "/proj/docs", "/b", "dirhtml"⟩, false⟩) 1 2
      PreviewManager.initial
      = Except.error
        "AttributeError: 'SphinxClient' object has no attribute 'builder'" ∧
    dirhtmlMap ("/foo" ++ "/" ++ "index.rst") = "/foo" ++ "/" ∧
    dirhtmlMap ("/foo/bar" ++ ".rst") = "/foo/bar" ++ "/" :=
  preview_dirhtml_crash_and_map "/proj/docs/index.rst"
    ⟨some ⟨"/proj/docs", "/proj/docs", "/b", "dirhtml"⟩, false⟩
    ⟨"/proj/docs", "/proj/docs", "/b", "dirhtml"⟩ 1 2 PreviewManager.initial
    rfl rfl "/foo" "/foo/bar" (by decide) (by decide) (by decide) (by decide)

/-- C3 (code bug): the claim — an unsupported builder makes `preview_file`
log the error, return absent and mutate no server state — is exactly what
the unreachable branch at lines 154–159 does, and is the spec's clear
intent.  But for every resolved client, whatever its builder kind, the
preceding line 145 looks up `client.builder`, an attribute `SphinxClient`
never defines, and the call raises `AttributeError` instead of returning
absent (no server state has been mutated when it propagates). -/
theorem preview_file_unsupported_builder (docPath : String) (c : SphinxClient)
    (info : SphinxInfo) (fh fw : Nat) (s : PreviewManager)
    (hi : c.sphinx_info = some info)
    (h1 : info.builder ≠ "html") (h2 : info.builder ≠ "dirhtml") :
    PreviewManager.preview_file docPath (some c) fh fw s
      = Except.error
        "AttributeError: 'SphinxClient' object has no attribute 'builder'" := by
  simp [PreviewManager.preview_file, hi]

/-- C3 witness: the failing input — a resolved `latex` client. -/
theorem preview_file_unsupported_builder_witness :
    PreviewManager.preview_file "/proj/docs/index.rst"
      (some ⟨some ⟨"/proj/docs", "/proj/docs", "/b", "latex"⟩, false⟩) 1 2
      PreviewManager.initial
      = Except.error
        "AttributeError: 'SphinxClient' object has no attribute 'builder'" :=
  preview_file_unsupported_builder "/proj/docs/index.rst"
    ⟨some ⟨"/proj/docs", "/proj/docs", "/b", "latex"⟩, false⟩
    ⟨"/proj/docs", "/proj/docs", "/b", "latex"⟩ 1 2 PreviewManager.initial
    rfl (by decide) (by decide)

/-- C4: `on_build` broadcasts a reload (the `reloads` counter increments)
exactly when the owning client resolves and its build directory equals the
directory currently targeted by the static preview server (the factory's
`build_dir`); in every other case the whole state is left unchanged. -/
theorem on_build_reload_iff (client : Option SphinxClient) (freshWs : Nat)
    (s : PreviewManager) :
    ((PreviewManager.on_build client freshWs s).reloads = s.reloads + 1 ↔
      ∃ c, client = some c ∧
        c.build_dir = some s.request_handler_factory.build_dir) ∧
    ((¬ ∃ c, client = some c ∧
        c.build_dir = some s.request_handler_factory.build_dir) →
      PreviewManager.on_build client freshWs s = s) := by
  cases client with
  | none =>
    refine ⟨?_, fun _ => rfl⟩
    simp [PreviewManager.on_build]
  | some c =>
    by_cases hb : c.build_dir = some s.request_handler_factory.build_dir
    · refine ⟨?_, fun hn => absurd ⟨c, rfl, hb⟩ hn⟩
      cases hws : s.ws_server <;>
        simp [PreviewManager.on_build, hb, PreviewManager.reload,
          PreviewManager.get_webview_server, hws]
    · refine ⟨?_, fun _ => ?_⟩ <;> simp [PreviewManager.on_build, hb]

/-- C4 witness: with no resolving client the build event is a no-op. -/
theorem on_build_reload_iff_witness :
    PreviewManager.on_build none 7 PreviewManager.initial
      = PreviewManager.initial :=
  (on_build_reload_iff none 7 PreviewManager.initial).2 (by simp)

/-- C5: `preview_file` returns `None` — not an error — when the registry
resolves no client for the source URI, and likewise when the resolved
client's source location, build directory or builder kind is still
unresolved.  All three are carried by `sphinx_info` (the `createApp`
response holds `srcDir`, `buildDir` and `builder` together), so any of them
being unresolved is the `sphinx_info = None` case, where
`client.src_uri is None` short-circuits the check at line 145 and the call
returns `None` with the state untouched, before the `client.builder`
lookup can raise. -/
theorem preview_file_unresolved (docPath : String) (client : Option SphinxClient)
    (fh fw : Nat) (s : PreviewManager)
    (h : client = none ∨ ∃ c, client = some c ∧
      (c.src_uri = none ∨ c.build_dir = none ∨ c.sphinx_info = none)) :
    PreviewManager.preview_file docPath client fh fw s
      = Except.ok (none, s) := by
  rcases h with rfl | ⟨c, rfl, hc⟩
  · rfl
  · have hinfo : c.sphinx_info = none := by
      cases hs : c.sphinx_info with
      | none => rfl
      | some info =>
        rcases hc with hc | hc | hc <;>
          simp [SphinxClient.src_uri, SphinxClient.src_dir,
            SphinxClient.build_dir, hs] at hc
    simp [PreviewManager.preview_file, hinfo]

/-- C5 witness: with no resolving client, `preview_file` returns `None`. -/
theorem preview_file_unresolved_witness :
    PreviewManager.preview_file "/proj/docs/index.rst" none 1 2
      PreviewManager.initial = Except.ok (none, PreviewManager.initial) :=
  preview_file_unresolved "/proj/docs/index.rst" none 1 2
    PreviewManager.initial (Or.inl rfl)

/-- C6: the server-ensure operations are idempotent, for both the static
preview HTTP server and the webview (control channel) server: from any
state, a second call returns the port the first call returned and leaves
the state exactly as the first call left it — no new server, no rebinding
(the second call's candidate ephemeral port is never consumed). -/
theorem ensure_started_idempotent (s : PreviewManager) (f1 f2 g1 g2 : Nat) :
    (PreviewManager.get_http_server f2
        (PreviewManager.get_http_server f1 s).2).1
      = (PreviewManager.get_http_server f1 s).1 ∧
    (PreviewManager.get_http_server f2
        (PreviewManager.get_http_server f1 s).2).2
      = (PreviewManager.get_http_server f1 s).2 ∧
    (PreviewManager.get_webview_server g2
        (PreviewManager.get_webview_server g1 s).2).1
      = (PreviewManager.get_webview_server g1 s).1 ∧
    (PreviewManager.get_webview_server g2
        (PreviewManager.get_webview_server g1 s).2).2
      = (PreviewManager.get_webview_server g1 s).2 := by
  cases hh : s.http_server <;> cases hw : s.ws_server <;>
    simp [PreviewManager.get_http_server, PreviewManager.get_webview_server,
      hh, hw]

/-- C7 (code bug): the claim describes the success value `preview_file` was
meant to return — the URI of scheme `http`, host `localhost`, the HTTP
server's port, the mapped path and the `ws=<port>` query, composed by the
unreachable lines 170–176 exactly as the spec's example
`http://localhost:<p1>/index.html?ws=<p2>` shows.  The program can never
exhibit it: for every resolved client — in particular the spec's
end-to-end `html` example — the call raises `AttributeError` at the
`client.builder` lookup of line 145 (and the `client.src_uri.path`
dereference of line 149, `src_uri` being a plain string, would raise
next), so no URI is ever composed. -/
theorem preview_file_uri_unreachable (docPath : String) (c : SphinxClient)
    (info : SphinxInfo) (fh fw : Nat) (s : PreviewManager)
    (hi : c.sphinx_info = some info) (hb : info.builder = "html") :
    PreviewManager.preview_file docPath (some c) fh fw s
      = Except.error
        "AttributeError: 'SphinxClient' object has no attribute 'builder'" := by
  simp [PreviewManager.preview_file, hi]

/-- C7 witness: the spec's end-to-end example input — source directory
`/proj/docs`, builder `html`, document `/proj/docs/index.rst` — raises
instead of yielding a preview URI. -/
theorem preview_file_uri_unreachable_witness :
    PreviewManager.preview_file "/proj/docs/index.rst"
      (some ⟨some ⟨"/proj/docs", "/proj/docs", "/b", "html"⟩, false⟩)
      8000 8001 PreviewManager.initial
      = Except.error
        "AttributeError: 'SphinxClient' object has no attribute 'builder'" :=
  preview_file_uri_unreachable "/proj/docs/index.rst"
    ⟨some ⟨"/proj/docs", "/proj/docs", "/b", "html"⟩, false⟩
    ⟨"/proj/docs", "/proj/docs", "/b", "html"⟩ 8000 8001
    PreviewManager.initial rfl rfl

/-- C8: `create_application` on a stopped client raises the invalid-state
error `RuntimeError("Client is stopped.")` and sends no RPC request (the
request count of the call is zero). -/
theorem create_application_stopped (c : SphinxClient) (resp : SphinxInfo)
    (h : c.stopped = true) :
    SphinxClient.create_application c resp
      = (Except.error "Client is stopped.", 0) := by
  simp [SphinxClient.create_application, h]

/-- C8 witness: a concrete stopped client. -/
theorem create_application_stopped_witness :
    SphinxClient.create_application ⟨none, true⟩ ⟨"/s", "/c", "/b", "html"⟩
      = (Except.error "Client is stopped.", 0) :=
  create_application_stopped ⟨none, true⟩ ⟨"/s", "/c", "/b", "html"⟩ rfl

/-- C9 counterexample: the claim says `server_exit` never raises regardless
of the content of the error stream; but for a non-zero exit status the code
runs `stderr.decode("utf8")`, which is strict, so the byte `0xFF` — not
valid UTF-8 — raises `UnicodeDecodeError`. -/
theorem server_exit_counterexample :
    server_exit 1 [0xFF] = Except.error "UnicodeDecodeError" := rfl

/-- C9 (amended): `server_exit` completes without an exception whenever the
exit status is zero (nothing is drained), and whenever the drained error
stream is valid UTF-8, in which case it is decoded and logged; only a
stream that is not valid UTF-8 makes the strict decode raise. -/
theorem server_exit_no_raise (rc : Int) (stderr : List Nat) (chars : List Char)
    (h : rc = 0 ∨ utf8Decode stderr = some chars) :
    server_exit rc stderr = Except.ok
      (if rc = 0 then ["Process exited with code: " ++ toString rc]
       else ["Process exited with code: " ++ toString rc,
         "Stderr:\n" ++ chars.asString]) := by
  by_cases hrc : rc = 0
  · subst hrc
    simp [server_exit]
  · rcases h with rfl | hdec
    · exact absurd rfl hrc
    · simp [server_exit, hrc, hdec]

/-- C9 witness: exit status 1 with the valid UTF-8 stream `boom` is drained
and logged without an exception. -/
theorem server_exit_no_raise_witness :
    server_exit 1 [98, 111, 111, 109] = Except.ok
      (if (1 : Int) = 0 then ["Process exited with code: " ++ toString (1 : Int)]
       else ["Process exited with code: " ++ toString (1 : Int),
         "Stderr:\n" ++ "boom".toList.asString]) :=
  server_exit_no_raise 1 [98, 111, 111, 109] "boom".toList (Or.inr (by decide))

/-- C10: immediately after construction the factory's `build_dir` — the
directory targeted by the static preview server — is the empty string, so
until some `preview_file` call retargets it, any sequence of build events
for clients whose build directory is not the empty string leaves the state
at its initial value: no reload is ever broadcast and the webview (control
channel) server is never started. -/
theorem initial_on_build_noop (events : List (SphinxClient × Nat))
    (h : ∀ e ∈ events, e.1.build_dir ≠ some "") :
    PreviewManager.initial.request_handler_factory.build_dir = "" ∧
    events.foldl (fun s e => PreviewManager.on_build (some e.1) e.2 s)
      PreviewManager.initial = PreviewManager.initial ∧
    (events.foldl (fun s e => PreviewManager.on_build (some e.1) e.2 s)
      PreviewManager.initial).ws_server = none := by
  have step : ∀ (c : SphinxClient) (f : Nat), c.build_dir ≠ some "" →
      PreviewManager.on_build (some c) f PreviewManager.initial
        = PreviewManager.initial := by
    intro c f hc
    show (if c.build_dir ≠ some
        PreviewManager.initial.request_handler_factory.build_dir
      then PreviewManager.initial
      else PreviewManager.reload
        (PreviewManager.get_webview_server f PreviewManager.initial).2)
      = PreviewManager.initial
    rw [if_pos]
    exact hc
  have main : events.foldl (fun s e => PreviewManager.on_build (some e.1) e.2 s)
      PreviewManager.initial = PreviewManager.initial := by
    induction events with
    | nil => rfl
    | cons e es ih =>
      rw [List.foldl_cons, step e.1 e.2 (h e (by simp))]
      exact ih fun x hx => h x (by simp [hx])
  exact ⟨rfl, main, by rw [main]; rfl⟩

/-- C10 witness: one build event for a client building into `/b` leaves the
freshly constructed state untouched. -/
theorem initial_on_build_noop_witness :
    PreviewManager.initial.request_handler_factory.build_dir = "" ∧
    [((⟨some ⟨"/s", "/c", "/b", "html"⟩, false⟩ : SphinxClient), 5)].foldl
      (fun s e => PreviewManager.on_build (some e.1) e.2 s)
      PreviewManager.initial = PreviewManager.initial ∧
    ([((⟨some ⟨"/s", "/c", "/b", "html"⟩, false⟩ : SphinxClient), 5)].foldl
      (fun s e => PreviewManager.on_build (some e.1) e.2 s)
      PreviewManager.initial).ws_server = none :=
  initial_on_build_noop
    [((⟨some ⟨"/s", "/c", "/b", "html"⟩, false⟩ : SphinxClient), 5)]
    (by decide)
